import Mathlib

/-!
Verification of the `errorx` error-code package and the `ws` websocket
dispatch package of `go-pkg`.

Shallow embedding conventions:
* Go `int` is modelled as `Int`; Go integer division (`/`, toward zero) is
  `Int.tdiv` and Go `%` is `Int.tmod`.  Go arithmetic that can overflow
  the 64-bit machine word — the additions and multiplications of the
  code-combiner packing — wraps explicitly through `wrap64`, the
  two's-complement reduction into `[-2^63, 2^63)`.
* A Go pointer `*ErrCode` is modelled as an `ErrCode` value carrying an
  `allocId : Nat` field: two pointers returned by distinct allocations are
  distinct, so Go pointer equality of `*ErrCode` handles is `allocId`
  equality.  `NewErrCode` therefore takes the identity of the fresh
  allocation as an extra first argument.
* Go `error` values are modelled by the inductive `GoErr`, whose
  constructors are exactly the error shapes the packages build:
  `plainError` (a stdlib error with no stack and no `Unwrap`),
  `fundamental` (`pkg/errors.New`: message plus captured stack),
  `withStack` (`pkg/errors.WithStack`: wrapper capturing a stack),
  `withMessage` (`pkg/errors.WithMessage(f)`: message layer, no stack),
  and `codeErr` (the `errorx.codeError` struct: an `ErrCode` plus an
  optional cause).
* `fmt.Sprintf` with `%s` verbs is modelled by `goSprintf`, a literal
  left-to-right substitution of rendered arguments for `%s`.
* The rendered text of a captured stack trace is an unknown nonempty
  string; it is modelled by the marker constant `stackTraceText`.
* Go maps are modelled as functions into `Option`; the `ws` header map and
  the handler registry use this representation, so registration is a
  functional update.  Mutex acquisition around registry and combiner
  accesses is a no-op in this sequential embedding.
* The melody session, the connection context and JSON (de)serialization
  are external collaborators: an inbound message `WireMsg` carries the
  outcome of decoding its `header` envelope field, and each typed handler
  carries the outcome of decoding its `data` field, instead of re-running
  a JSON parser.
-/

namespace GoPkg

/-! ## errorx: category constants and code combination (`codeCombiner323`) -/

/-- `errorx.CCBadRequest` (HTTP 400). -/
def CCBadRequest : Int := 400

/-- `errorx.CCUnauthorized` (HTTP 401). -/
def CCUnauthorized : Int := 401

/-- `errorx.CCForbidden` (HTTP 403). -/
def CCForbidden : Int := 403

/-- `errorx.CCNotFound` (HTTP 404). -/
def CCNotFound : Int := 404

/-- `errorx.CCInternalServer` (HTTP 500). -/
def CCInternalServer : Int := 500

/-- `errorx.CCNotImplemented` (HTTP 501). -/
def CCNotImplemented : Int := 501

/-- `errorx.CCUnknown` (900). -/
def CCUnknown : Int := 900

/-- Two's-complement wrap-around of a 64-bit Go `int` operation: the
value the machine actually produces, reduced into `[-2^63, 2^63)`. -/
def wrap64 (n : Int) : Int := (n + 2 ^ 63) % 2 ^ 64 - 2 ^ 63

namespace codeCombiner323

/-- `codeCombiner323.Combine`:
`categoryCode*100000 + platformCode*1000 + specificCode`, with every Go
`int` multiplication and addition wrapping on 64-bit overflow. -/
def Combine (categoryCode platformCode specificCode : Int) : Int :=
  wrap64 (wrap64 (wrap64 (categoryCode * 100000) + wrap64 (platformCode * 1000)) +
    specificCode)

/-- `codeCombiner323.Separate`: `code / 100000, code / 1000 % 100, code % 1000`
with Go division semantics (truncation toward zero).  Division and
remainder by the positive constants `100000`, `1000` and `100` can never
overflow int64, so no wrapping is involved here. -/
def Separate (code : Int) : Int × Int × Int :=
  (Int.tdiv code 100000, Int.tmod (Int.tdiv code 1000) 100, Int.tmod code 1000)

end codeCombiner323

/-! ## errorx: ErrCode -/

/-- `errorx.ErrCode`: packed integer code plus human message.  The `allocId`
field models the identity of the Go allocation so that pointer equality of
`*ErrCode` handles can be expressed (see module docstring). -/
structure ErrCode where
  allocId : Nat
  code : Int
  message : String
deriving DecidableEq, Repr

/-- `errorx.NewErrCode`: packs the three sub-codes with the (default)
combiner.  The extra `allocId` argument models the fresh pointer returned
by the Go allocation. -/
def NewErrCode (allocId : Nat) (categoryCode platformCode specificCode : Int)
    (message : String) : ErrCode :=
  { allocId := allocId
    code := codeCombiner323.Combine categoryCode platformCode specificCode
    message := message }

/-- `errorx.SeparateCode` (with the default combiner installed). -/
def SeparateCode (code : Int) : Int × Int × Int :=
  codeCombiner323.Separate code

/-- `(*ErrCode).GetCode`. -/
def ErrCode.GetCode (c : ErrCode) : Int := c.code

/-- `(*ErrCode).GetMessage`. -/
def ErrCode.GetMessage (c : ErrCode) : String := c.message

/-- `(*ErrCode).GetCategoryCode` (via the default combiner). -/
def ErrCode.GetCategoryCode (c : ErrCode) : Int :=
  (codeCombiner323.Separate c.GetCode).1

/-- `(*ErrCode).GetPlatformCode` (via the default combiner). -/
def ErrCode.GetPlatformCode (c : ErrCode) : Int :=
  (codeCombiner323.Separate c.GetCode).2.1

/-- `(*ErrCode).GetSpecificCode` (via the default combiner). -/
def ErrCode.GetSpecificCode (c : ErrCode) : Int :=
  (codeCombiner323.Separate c.GetCode).2.2

/-- `errorx.getErrCodeHTTPStatus`: the category code, with `CCUnknown`
mapped to HTTP 500. -/
def getErrCodeHTTPStatus (c : ErrCode) : Int :=
  if c.GetCategoryCode = CCUnknown then 500 else c.GetCategoryCode

/-- `(*ErrCode).IsErrCode`: Go pointer equality `c == ec`, i.e. identity of
the allocation. -/
def ErrCode.IsErrCode (c ec : ErrCode) : Bool :=
  c.allocId == ec.allocId

/-! ## Go error values -/

/-- A Go `interface\x7b\x7d` value, as far as the embedded code inspects
it: either a `string` or a value of any other dynamic type. -/
inductive GoVal where
  | str (s : String)
  | nonStr
deriving DecidableEq, Repr

/-- How `fmt` renders a `GoVal` with a `%s` verb. -/
def GoVal.render : GoVal → String
  | .str s => s
  | .nonStr => "<value>"

/-- The Go `error` values built by the `errorx` and `ws` packages:
stdlib errors (no stack, no `Unwrap`), `pkg/errors` fundamentals
(message plus stack), `WithStack` wrappers, `WithMessage` wrappers and the
`errorx.codeError` struct (whose embedded cause may be `nil`). -/
inductive GoErr where
  | plainError (msg : String)
  | fundamental (msg : String)
  | withStack (cause : GoErr)
  | withMessage (msg : String) (cause : GoErr)
  | codeErr (c : ErrCode) (cause : Option GoErr)
deriving Repr

/-- `errors.Unwrap`: `plainError` and `fundamental` have no `Unwrap`
method; `withStack`, `withMessage` and `codeError` unwrap to their cause
(`codeError.Unwrap` returns the embedded, possibly-`nil`, error). -/
def errorsUnwrap : GoErr → Option GoErr
  | .plainError _ => none
  | .fundamental _ => none
  | .withStack cause => some cause
  | .withMessage _ cause => some cause
  | .codeErr _ cause => cause

/-- The `Error()` string of each error shape: `withMessage` renders
`msg + ": " + cause.Error()`, `withStack` delegates to its cause, and
`codeError.Error` is `"<code>: <message>"`. -/
def errString : GoErr → String
  | .plainError msg => msg
  | .fundamental msg => msg
  | .withStack cause => errString cause
  | .withMessage msg cause => msg ++ ": " ++ errString cause
  | .codeErr c _ => toString c.GetCode ++ ": " ++ c.GetMessage

/-- `errorx.hasStack`: walk the `Unwrap` chain looking for a value with a
`StackTrace` method (`fundamental` and `withStack` are the only
stack-tracers).  The Go loop is unrolled per error shape; `hasStack nil`
is `false`. -/
def hasStack : Option GoErr → Bool
  | none => false
  | some (.plainError _) => false
  | some (.fundamental _) => true
  | some (.withStack _) => true
  | some (.withMessage _ cause) => hasStack (some cause)
  | some (.codeErr _ cause) => hasStack cause

/-- `errorx.newCodeErrorInternal`: wrap `c` and the (optional) cause in a
`codeError`; capture a stack (`errors.WithStack`) only when the cause does
not already carry one. -/
def newCodeErrorInternal (c : ErrCode) (err : Option GoErr) : GoErr :=
  let ce := GoErr.codeErr c err
  if hasStack err then ce else GoErr.withStack ce

/-- `fmt.Sprintf` restricted to `%s` verbs, on the underlying character
list: each `%s` consumes one argument, other characters are copied. -/
def goSprintfAux : List Char → List GoVal → List Char
  | [], _ => []
  | '%' :: 's' :: rest, a :: as => a.render.toList ++ goSprintfAux rest as
  | ch :: rest, as => ch :: goSprintfAux rest as

/-- `fmt.Sprintf` restricted to `%s` verbs (the only verbs the embedded
call sites use on their arguments). -/
def goSprintf (format : String) (args : List GoVal) : String :=
  String.mk (goSprintfAux format.toList args)

/-- `errorx.WithCode`: build the internal code error; with no extra
arguments, or a first extra argument that is not a string, return it
as is; otherwise add a `WithMessage(f)` layer. -/
def WithCode (c : ErrCode) (err : Option GoErr) (formatWithArgs : List GoVal) : GoErr :=
  let ce := newCodeErrorInternal c err
  match formatWithArgs with
  | [] => ce
  | .nonStr :: _ => ce
  | .str format :: rest =>
    match rest with
    | [] => GoErr.withMessage format ce
    | _ => GoErr.withMessage (goSprintf format rest) ce

/-- `errorx.AsCodeError`: `errors.As` searching the unwrap chain for a
`*codeError`; returns the fields of the first `codeError` node found.
The search stops at that node, so nothing below a `codeError` is
inspected. -/
def AsCodeError : GoErr → Option (ErrCode × Option GoErr)
  | .plainError _ => none
  | .fundamental _ => none
  | .withStack cause => AsCodeError cause
  | .withMessage _ cause => AsCodeError cause
  | .codeErr c cause => some (c, cause)

/-- `errorx.IsCodeError`: find a `codeError` in the chain; with no target
code any `codeError` matches, with one target compare pointer identity via
`IsErrCode`, with more than one target return `false`. -/
def IsCodeError (err : GoErr) (c : List ErrCode) : Bool :=
  match AsCodeError err with
  | none => false
  | some (ce, _) =>
    match c with
    | [] => true
    | [c0] => ce.IsErrCode c0
    | _ => false

/-- `errorx.TakeCodePriority`: first non-`nil` result of the candidate
functions, else `nil`. -/
def TakeCodePriority : List (Unit → Option ErrCode) → Option ErrCode
  | [] => none
  | fn :: fns =>
    match fn () with
    | some e => some e
    | none => TakeCodePriority fns

/-- Number of captured stack traces sitting in an error value
(`fundamental` and `withStack` each hold exactly one). -/
def stackCount : GoErr → Nat
  | .plainError _ => 0
  | .fundamental _ => 1
  | .withStack cause => stackCount cause + 1
  | .withMessage _ cause => stackCount cause
  | .codeErr _ none => 0
  | .codeErr _ (some cause) => stackCount cause

/-- `stackCount` on an optional cause. -/
def stackCountOpt : Option GoErr → Nat
  | none => 0
  | some e => stackCount e

/-- The text `pkg/errors` renders for one captured stack trace (an
unknown, nonempty, newline-led string; modelled by a marker). -/
def stackTraceText : String := "\n<stack trace>"

/-- `%+v` formatting: `fundamental` prints its message then its stack,
`withStack` prints its cause (`%+v`) then its own stack, `withMessage`
prints its cause (`%+v`), a newline and its message, and
`codeError.Format` prints its cause (`%+v`), a newline and its own
`Error()` text — or just the `Error()` text when the cause is `nil`. -/
def formatPlusV : GoErr → String
  | .plainError msg => msg
  | .fundamental msg => msg ++ stackTraceText
  | .withStack cause => formatPlusV cause ++ stackTraceText
  | .withMessage msg cause => formatPlusV cause ++ "\n" ++ msg
  | .codeErr c none => errString (GoErr.codeErr c none)
  | .codeErr c (some cause) =>
    formatPlusV cause ++ "\n" ++ errString (GoErr.codeErr c (some cause))

/-! ## ws: Header -/

/-- `ws.HeaderFieldID`. -/
def HeaderFieldID : String := "id"

/-- `ws.HeaderFieldVersion`. -/
def HeaderFieldVersion : String := "version"

/-- `ws.HeaderFieldAction`. -/
def HeaderFieldAction : String := "action"

/-- `ws.Header`: `map[string]any`, modelled as a function into `Option`. -/
def Header : Type := String → Option GoVal

/-- The zero-value (`nil`/empty) header map. -/
def emptyHeader : Header := fun _ => none

/-- `Header.Get`. -/
def Header.Get (h : Header) (field : String) : Option GoVal × Bool :=
  match h field with
  | some v => (some v, true)
  | none => (none, false)

/-- `Header.Set`. -/
def Header.Set (h : Header) (field : String) (val : GoVal) : Header :=
  fun f => if f = field then some val else h f

/-- `Header.Delete`. -/
def Header.Delete (h : Header) (field : String) : Header :=
  fun f => if f = field then none else h f

/-- `ws.GetHeaderWithType` instantiated at `string` (the shape
`Header.GetString` uses): a missing field or a non-string value yields
`("", false)`. -/
def Header.GetString (h : Header) (field : String) : String × Bool :=
  match h field with
  | some (GoVal.str s) => (s, true)
  | some GoVal.nonStr => ("", false)
  | none => ("", false)

/-- `Header.ID`. -/
def Header.ID (h : Header) : String := (h.GetString HeaderFieldID).1

/-- `Header.Version`. -/
def Header.Version (h : Header) : String := (h.GetString HeaderFieldVersion).1

/-- `Header.Action`. -/
def Header.Action (h : Header) : String := (h.GetString HeaderFieldAction).1

/-- `Header.Key`: `action` when `version` is empty, else
`version + "/" + action`. -/
def Header.Key (h : Header) : String :=
  if h.Version = "" then h.Action else h.Version ++ "/" ++ h.Action

/-! ## ws: handlers and the dispatcher -/

/-- `ws.HandlerDetailsType` with its four declared values
(`HandlerDetailsNone = 0`, `HandlerDetailsNormal = 1`,
`HandlerDetailsWithError = 2`, `HandlerDetailsFull = 3`). -/
inductive HandlerDetailsType where
  | HandlerDetailsNone
  | HandlerDetailsNormal
  | HandlerDetailsWithError
  | HandlerDetailsFull
deriving DecidableEq, Repr

/-- Outcome of invoking a handler on a message: a normal return of
`(respData, err)` or a runtime panic.  Both carry the header map as the
handler left it (handlers receive `*Header` and may mutate it). -/
inductive InvokeResult where
  | ret (header : Header) (respData : Option GoVal) (err : Option GoErr)
  | panicked (header : Header) (rendered : String)

/-- An inbound raw message, represented by the outcome of
`json.Unmarshal` into the envelope shape `{header: Header}`: either the
decoded header or the decode error's message. -/
structure WireMsg where
  headerParse : Except String Header

/-- `ws.MessageHandlerInterface`: the type-erased contract stored in the
registry.  `Handle` receives the (mutable) header and the raw message;
the connection context is omitted — handler behaviour is an arbitrary
function in this model. -/
structure MessageHandlerInterface where
  GetHeader : Header
  Handle : Header → WireMsg → InvokeResult

/-- `ws.MessageHandler[ReqDataType, RespDataType]`: the generic typed
handler.  `dataParse` is the outcome of `json.Unmarshal` of the raw
message into `{data: ReqDataType}`; `HandleFunc` is the caller-supplied
business function (its typed response is erased into the `InvokeResult`). -/
structure MessageHandler (ReqDataType : Type) where
  Header : Header
  dataParse : WireMsg → Except String ReqDataType
  HandleFunc : GoPkg.Header → ReqDataType → InvokeResult

/-- `(*MessageHandler).GetHeader` (returns a copy of the declared header). -/
def MessageHandler.GetHeader {Req : Type} (mh : MessageHandler Req) : GoPkg.Header :=
  mh.Header

/-- `(*MessageHandler).Handle`: decode the `data` field into the declared
request type; on failure return the raw decode error (a stdlib error with
no stack and no code) without invoking `HandleFunc`; on success invoke
`HandleFunc`. -/
def MessageHandler.Handle {Req : Type} (mh : MessageHandler Req)
    (header : GoPkg.Header) (msg : WireMsg) : InvokeResult :=
  match mh.dataParse msg with
  | .error emsg => .ret header none (some (.plainError emsg))
  | .ok d => mh.HandleFunc header d

/-- Type erasure of a `MessageHandler` into the registry contract. -/
def MessageHandler.toInterface {Req : Type} (mh : MessageHandler Req) :
    MessageHandlerInterface :=
  { GetHeader := mh.GetHeader
    Handle := mh.Handle }

/-- `ws.defaultHandler`: the dispatcher state the dispatch path reads —
the optional caller-supplied error classifier, the details verbosity and
the handler registry.  Connection tuning values and the melody session
are external collaborators and are not modelled. -/
structure defaultHandler where
  fnGetErrCode : Option (GoErr → Option ErrCode)
  detailsType : HandlerDetailsType
  messageHandlers : String → Option MessageHandlerInterface

/-- `ws.NewServer` with no options: no classifier, details type zero value
(`HandlerDetailsNone`), empty registry. -/
def NewServer : defaultHandler :=
  { fnGetErrCode := none
    detailsType := .HandlerDetailsNone
    messageHandlers := fun _ => none }

/-- `(*defaultHandler).RegisterMessageHandler`: store (or overwrite) the
handler under its declared header's routing key. -/
def RegisterMessageHandler (h : defaultHandler) (mh : MessageHandlerInterface) :
    defaultHandler :=
  { h with
    messageHandlers :=
      fun k => if k = mh.GetHeader.Key then some mh else h.messageHandlers k }

/-- Modelled from the spec: the `ws` package's `ErrParam` sentinel is
declared outside the provided sources (only its uses appear in
`handleMessage`).  Per the spec ("Unknown route — no registered handler
for the computed key → bad-parameter code"; "Malformed envelope — header
undecodable → bad-parameter code") it is an `ErrCode` handle in the
bad-request category. -/
def ErrParamErrCode : ErrCode := NewErrCode 100 CCBadRequest 0 0 "ErrParam"

/-- Modelled from the spec: the `ErrParam` sentinel error value, a
`CodeError` over `ErrParamErrCode` with no cause. -/
def ErrParam : GoErr := WithCode ErrParamErrCode none []

/-- The allocation identity used for the fresh
`NewErrCode(CCInternalServer, 0, 0, "ErrInternalServer")` fallback handle
that `getResp` creates. -/
def internalServerAllocId : Nat := 200

/-- The `fn` closure of `ws.(*defaultHandler).handleMessage`, including
its `recover` guard: decode the envelope header (failure → `ErrParam`
wrapped with the decode message), look up the registry (miss → `ErrParam`
wrapped with the unknown key), otherwise invoke the handler; a panic
anywhere inside is recovered into `pkg/errors.New("panic: ...")`.
Returns the header as left behind (the zero-value header on decode
failure) plus the `(respData, err)` pair. -/
def handleMessageFn (h : defaultHandler) (msg : WireMsg) :
    Header × Option GoVal × Option GoErr :=
  match msg.headerParse with
  | .error emsg =>
    (emptyHeader, none,
      some (.withMessage (goSprintf "unmarshal failed, %s" [.str emsg]) ErrParam))
  | .ok hdr =>
    match h.messageHandlers hdr.Key with
    | none =>
      (hdr, none,
        some (.withMessage (goSprintf "unknown header msg type %s" [.str hdr.Key]) ErrParam))
    | some mh =>
      match mh.Handle hdr msg with
      | .ret hdr2 d e => (hdr2, d, e)
      | .panicked hdr2 rendered =>
        (hdr2, none, some (.fundamental (goSprintf "panic: %s" [.str rendered])))

/-- The error-classification step of `getResp` (its `if err != nil` body
up to `e, _ = errorx.AsCodeError(err)`): find a `codeError` in the chain;
if there is none, wrap the error via `WithCode` with the first code the
priority chain produces — the caller-supplied classifier first, then the
fixed internal-server fallback.  The second candidate always returns a
code, so the `TakeCodePriority` result is never `none`; likewise
`AsCodeError` always succeeds on the freshly wrapped error (the Go code
discards both `ok` flags); `getD` covers the unreachable branches. -/
def resolveCodeError (h : defaultHandler) (err0 : GoErr) : ErrCode × Option GoErr :=
  match AsCodeError err0 with
  | some e => e
  | none =>
    let fallback := NewErrCode internalServerAllocId CCInternalServer 0 0 "ErrInternalServer"
    let c := (TakeCodePriority
      [fun _ =>
        match h.fnGetErrCode with
        | none => none
        | some fn => fn err0,
       fun _ => some fallback]).getD fallback
    (AsCodeError (WithCode c (some err0) [])).getD (c, some err0)

/-- `ws.(*defaultHandler).getDetails` on the `codeError` found by
`getResp` (given by its `ErrCode` and cause): empty for
`HandlerDetailsNone`, `e.Error()` for `HandlerDetailsNormal`, `e.Error()`
plus the unwrapped cause's `Error()` for `HandlerDetailsWithError`, and
`fmt.Sprintf("%+v", e)` for `HandlerDetailsFull`. -/
def getDetails (h : defaultHandler) (c : ErrCode) (cause : Option GoErr) : String :=
  match h.detailsType with
  | .HandlerDetailsNone => ""
  | .HandlerDetailsNormal => errString (GoErr.codeErr c cause)
  | .HandlerDetailsWithError =>
    match errorsUnwrap (GoErr.codeErr c cause) with
    | some internalError =>
      errString (GoErr.codeErr c cause) ++ ":" ++ errString internalError
    | none => errString (GoErr.codeErr c cause)
  | .HandlerDetailsFull => formatPlusV (GoErr.codeErr c cause)

/-- The response envelope `{header, code, message, data, details?}`;
`details = none` models the field being absent. -/
structure RespEnv where
  header : Header
  code : Int
  message : String
  data : Option GoVal
  details : Option String

/-- `ws.(*defaultHandler).getResp`: the success envelope
`{code: 0, message: "Success"}` carrying `respData`; on error, overwrite
`code`/`message` from the resolved `codeError` and attach `details` only
when `getDetails` returns a nonempty string. -/
def getResp (h : defaultHandler) (header : Header) (respData : Option GoVal)
    (err : Option GoErr) : RespEnv :=
  match err with
  | none => ⟨header, 0, "Success", respData, none⟩
  | some err0 =>
    let e := resolveCodeError h err0
    let details := getDetails h e.1 e.2
    ⟨header, e.1.GetCode, e.1.GetMessage, respData,
      if details = "" then none else some details⟩

/-- `ws.(*defaultHandler).handleMessage` up to the point the envelope is
handed to serialization: run the guarded dispatch closure and build the
response envelope.  Exactly one envelope is computed per inbound message;
the secondary-serialization retry and the session write are external I/O
and are not modelled. -/
def handleMessage (h : defaultHandler) (msg : WireMsg) : RespEnv :=
  let r := handleMessageFn h msg
  getResp h r.1 r.2.1 r.2.2

/-! ## Concrete fixtures used by the witness theorems -/

/-- A header declaring `version: "v1", action: "echo"` (routing key
`"v1/echo"`). -/
def hdrEcho : Header :=
  (emptyHeader.Set HeaderFieldVersion (.str "v1")).Set HeaderFieldAction (.str "echo")

/-- A header declaring only `action: "missing"` (routing key `"missing"`). -/
def hdrMissing : Header :=
  emptyHeader.Set HeaderFieldAction (.str "missing")

/-- A registered handler for `"v1/echo"` that panics when invoked. -/
def panicEchoHandler : MessageHandlerInterface :=
  { GetHeader := hdrEcho
    Handle := fun header _ => .panicked header "boom" }

/-- A probe handler for `"v1/echo"` answering `"A"`. -/
def probeHandlerA : MessageHandlerInterface :=
  { GetHeader := hdrEcho
    Handle := fun header _ => .ret header (some (.str "A")) none }

/-- A probe handler for `"v1/echo"` answering `"B"`. -/
def probeHandlerB : MessageHandlerInterface :=
  { GetHeader := hdrEcho
    Handle := fun header _ => .ret header (some (.str "B")) none }

/-- A typed handler for `"v1/echo"` whose `data` field never decodes; its
`HandleFunc` would answer `"INVOKED"` if it were ever reached. -/
def badDataEchoHandler : MessageHandler Unit :=
  { Header := hdrEcho
    dataParse := fun _ => .error "json: cannot unmarshal string into Go struct field .data"
    HandleFunc := fun header _ => .ret header (some (.str "INVOKED")) none }

/-- A server with only the panicking `"v1/echo"` handler registered. -/
def serverWithPanicHandler : defaultHandler :=
  RegisterMessageHandler NewServer panicEchoHandler

/-- A server with only the undecodable-data `"v1/echo"` handler
registered. -/
def serverWithBadDataHandler : defaultHandler :=
  RegisterMessageHandler NewServer badDataEchoHandler.toInterface

/-- A server with full details verbosity and no handlers. -/
def serverFullDetails : defaultHandler :=
  { NewServer with detailsType := .HandlerDetailsFull }

/-- An inbound message whose header decodes to `hdrEcho`. -/
def msgEcho : WireMsg := ⟨.ok hdrEcho⟩

/-- An inbound message whose header decodes to `hdrMissing`. -/
def msgMissing : WireMsg := ⟨.ok hdrMissing⟩

/-! # Theorems -/

/-! ## Claim C1 -/

/-- `wrap64` is the identity on values already inside the int64 range:
Go arithmetic that does not overflow computes the exact integer. -/
theorem wrap64_eq_self (n : Int) (h0 : -(2 ^ 63) ≤ n) (h1 : n < 2 ^ 63) :
    wrap64 n = n := by
  unfold wrap64
  omega

/-- C1 (counterexample to the claim as stated): at category code
`92233720368548` — nonnegative, with platform and specific codes `0` —
the Go multiplication `categoryCode*100000` exceeds `2^63 - 1`, wraps to
a negative int64, and the roundtrip fails. -/
theorem combine_overflow_counterexample :
    codeCombiner323.Separate (codeCombiner323.Combine 92233720368548 0 0) ≠
      (92233720368548, 0, 0) := by
  decide

/-- C1 (amended): for every category code `c >= 0`, platform code
`0 <= p < 100` and specific code `0 <= s < 1000` whose packed value
`c*100000 + p*1000 + s` stays below `2^63` (no int64 overflow — the
bound within which callers are responsible for staying, and which every
triple within the documented 3/2/3 digit widths satisfies), the default
combination strategy satisfies `Separate (Combine c p s) = (c, p, s)`. -/
theorem combine_separate_roundtrip (c p s : Int)
    (hc : 0 ≤ c) (hp0 : 0 ≤ p) (hp : p < 100) (hs0 : 0 ≤ s) (hs : s < 1000)
    (hov : c * 100000 + p * 1000 + s < 2 ^ 63) :
    codeCombiner323.Separate (codeCombiner323.Combine c p s) = (c, p, s) := by
  unfold codeCombiner323.Separate codeCombiner323.Combine
  rw [wrap64_eq_self (c * 100000) (by omega) (by omega),
    wrap64_eq_self (p * 1000) (by omega) (by omega),
    wrap64_eq_self (c * 100000 + p * 1000) (by omega) (by omega),
    wrap64_eq_self (c * 100000 + p * 1000 + s) (by omega) (by omega)]
  have hcode : (0 : Int) ≤ c * 100000 + p * 1000 + s := by positivity
  have h1 : Int.tdiv (c * 100000 + p * 1000 + s) 100000 = c := by
    rw [Int.tdiv_eq_ediv hcode (by norm_num)]
    omega
  have h2 : Int.tdiv (c * 100000 + p * 1000 + s) 1000 = c * 100 + p := by
    rw [Int.tdiv_eq_ediv hcode (by norm_num)]
    omega
  have h3 : Int.tmod (c * 100 + p) 100 = p := by
    rw [Int.tmod_eq_emod (by positivity) (by norm_num)]
    omega
  have h4 : Int.tmod (c * 100000 + p * 1000 + s) 1000 = s := by
    rw [Int.tmod_eq_emod hcode (by norm_num)]
    omega
  rw [h1, h2, h3, h4]

/-- Witness for C1 at the spec's own example `4041001`. -/
theorem combine_separate_roundtrip_witness :
    codeCombiner323.Separate (codeCombiner323.Combine 404 10 1) = (404, 10, 1) :=
  combine_separate_roundtrip 404 10 1 (by norm_num) (by norm_num) (by norm_num)
    (by norm_num) (by norm_num) (by norm_num)

/-! ## Stack-count helper lemmas -/

/-- If `hasStack` finds no stack-tracer in the unwrap chain, the value
holds no captured stack at all. -/
theorem stackCountOpt_eq_zero_of_not_hasStack :
    ∀ oe : Option GoErr, hasStack oe = false → stackCountOpt oe = 0
  | none, _ => rfl
  | some (.plainError _), _ => rfl
  | some (.fundamental _), h => by simp [hasStack] at h
  | some (.withStack _), h => by simp [hasStack] at h
  | some (.withMessage _ cause), h => by
    have ih := stackCountOpt_eq_zero_of_not_hasStack (some cause)
      (by simpa [hasStack] using h)
    simpa [stackCountOpt, stackCount] using ih
  | some (.codeErr _ cause), h => by
    have ih := stackCountOpt_eq_zero_of_not_hasStack cause
      (by simpa [hasStack] using h)
    cases cause with
    | none => rfl
    | some e => simpa [stackCountOpt, stackCount] using ih

/-- The `codeError` struct itself holds no stack; its count is its
cause's. -/
theorem stackCount_codeErr (c : ErrCode) (cause : Option GoErr) :
    stackCount (GoErr.codeErr c cause) = stackCountOpt cause := by
  cases cause <;> rfl

/-! ## Resolution helper lemmas -/

/-- `AsCodeError` always finds the `codeError` node freshly built by
`WithCode` with no message arguments. -/
theorem asCodeError_withCode_nil (c : ErrCode) (e0 : GoErr) :
    AsCodeError (WithCode c (some e0) []) = some (c, some e0) := by
  unfold WithCode newCodeErrorInternal
  by_cases h : hasStack (some e0) <;> simp [h, AsCodeError]

/-- With no caller-supplied classifier, a non-`CodeError` resolves to the
fixed internal-server fallback wrapped around the original error. -/
theorem resolveCodeError_no_classifier (h : defaultHandler) (e0 : GoErr)
    (hnc : AsCodeError e0 = none) (hfn : h.fnGetErrCode = none) :
    resolveCodeError h e0 =
      (NewErrCode internalServerAllocId CCInternalServer 0 0 "ErrInternalServer",
        some e0) := by
  unfold resolveCodeError
  simp [hnc, hfn, TakeCodePriority, asCodeError_withCode_nil]

/-- When the caller-supplied classifier recognizes the error, its code is
used, wrapped around the original error. -/
theorem resolveCodeError_classifier_hit (h : defaultHandler) (e0 : GoErr)
    (fn : GoErr → Option ErrCode) (c : ErrCode)
    (hnc : AsCodeError e0 = none) (hfn : h.fnGetErrCode = some fn)
    (hc : fn e0 = some c) :
    resolveCodeError h e0 = (c, some e0) := by
  unfold resolveCodeError
  simp [hnc, hfn, hc, TakeCodePriority, asCodeError_withCode_nil]

/-- When the caller-supplied classifier declines, the fixed
internal-server fallback is used. -/
theorem resolveCodeError_classifier_miss (h : defaultHandler) (e0 : GoErr)
    (fn : GoErr → Option ErrCode)
    (hnc : AsCodeError e0 = none) (hfn : h.fnGetErrCode = some fn)
    (hc : fn e0 = none) :
    resolveCodeError h e0 =
      (NewErrCode internalServerAllocId CCInternalServer 0 0 "ErrInternalServer",
        some e0) := by
  unfold resolveCodeError
  simp [hnc, hfn, hc, TakeCodePriority, asCodeError_withCode_nil]

/-! ## Claim C5 -/

/-- C5: for an error that is not already a `CodeError`, response-code
resolution consults the caller-supplied classifier first and falls back to
the default internal-server code (`Combine 500 0 0`), so the outbound
envelope carries a determinate non-zero code in the fallback cases. -/
theorem error_code_resolution (h : defaultHandler) (hdr : Header)
    (d : Option GoVal) (e0 : GoErr) (hnc : AsCodeError e0 = none) :
    (h.fnGetErrCode = none →
      (getResp h hdr d (some e0)).code = codeCombiner323.Combine CCInternalServer 0 0 ∧
      (getResp h hdr d (some e0)).code ≠ 0) ∧
    (∀ fn c, h.fnGetErrCode = some fn → fn e0 = some c →
      (getResp h hdr d (some e0)).code = c.GetCode) ∧
    (∀ fn, h.fnGetErrCode = some fn → fn e0 = none →
      (getResp h hdr d (some e0)).code = codeCombiner323.Combine CCInternalServer 0 0 ∧
      (getResp h hdr d (some e0)).code ≠ 0) := by
  refine ⟨fun hfn => ?_, fun fn c hfn hc => ?_, fun fn hfn hc => ?_⟩
  · rw [show (getResp h hdr d (some e0)).code = (resolveCodeError h e0).1.GetCode from rfl,
      resolveCodeError_no_classifier h e0 hnc hfn]
    refine ⟨rfl, ?_⟩
    show (NewErrCode internalServerAllocId CCInternalServer 0 0 "ErrInternalServer").GetCode ≠ 0
    decide
  · rw [show (getResp h hdr d (some e0)).code = (resolveCodeError h e0).1.GetCode from rfl,
      resolveCodeError_classifier_hit h e0 fn c hnc hfn hc]
  · rw [show (getResp h hdr d (some e0)).code = (resolveCodeError h e0).1.GetCode from rfl,
      resolveCodeError_classifier_miss h e0 fn hnc hfn hc]
    refine ⟨rfl, ?_⟩
    show (NewErrCode internalServerAllocId CCInternalServer 0 0 "ErrInternalServer").GetCode ≠ 0
    decide

/-- Witness for C5: a raw stdlib error under the default server
configuration resolves to the internal-server fallback `50000000`. -/
theorem error_code_resolution_witness :
    (getResp NewServer emptyHeader none (some (GoErr.plainError "boom"))).code =
      codeCombiner323.Combine CCInternalServer 0 0 ∧
    (getResp NewServer emptyHeader none (some (GoErr.plainError "boom"))).code ≠ 0 :=
  (error_code_resolution NewServer emptyHeader none (GoErr.plainError "boom")
    (by simp [AsCodeError])).1 rfl

/-! ## Claim C2 -/

/-- C2: a handler panic is recovered inside the dispatch closure and
converted into an ordinary `pkg/errors.New` error; the dispatcher still
computes its one response envelope, whose code is non-zero (the
classifier chain never labels an error with the success code `0`:
classifier hits are non-zero by the `ErrCode` contract, and the fallback
is `50000000`).  Totality of `handleMessage` is the model's rendering of
"the dispatch task is not terminated". -/
theorem panic_contained (h : defaultHandler) (msg : WireMsg) (hdr hdr2 : Header)
    (mh : MessageHandlerInterface) (rendered : String)
    (hparse : msg.headerParse = Except.ok hdr)
    (hlook : h.messageHandlers hdr.Key = some mh)
    (hpanic : mh.Handle hdr msg = .panicked hdr2 rendered)
    (hcl : ∀ fn e c, h.fnGetErrCode = some fn → fn e = some c → c.GetCode ≠ 0) :
    handleMessageFn h msg =
      (hdr2, none, some (.fundamental (goSprintf "panic: %s" [.str rendered]))) ∧
    (handleMessage h msg).code ≠ 0 := by
  have hfn : handleMessageFn h msg =
      (hdr2, none, some (.fundamental (goSprintf "panic: %s" [.str rendered]))) := by
    unfold handleMessageFn
    rw [hparse]
    simp [hlook, hpanic]
  refine ⟨hfn, ?_⟩
  have hnc : AsCodeError (.fundamental (goSprintf "panic: %s" [.str rendered])) = none := by
    simp [AsCodeError]
  unfold handleMessage
  rw [hfn]
  show (getResp h hdr2 none (some (.fundamental (goSprintf "panic: %s" [.str rendered])))).code ≠ 0
  rw [show ∀ e0, (getResp h hdr2 none (some e0)).code = (resolveCodeError h e0).1.GetCode
    from fun _ => rfl]
  cases hge : h.fnGetErrCode with
  | none =>
    rw [resolveCodeError_no_classifier h _ hnc hge]
    show (NewErrCode internalServerAllocId CCInternalServer 0 0 "ErrInternalServer").GetCode ≠ 0
    decide
  | some fn =>
    cases hc : fn (.fundamental (goSprintf "panic: %s" [.str rendered])) with
    | none =>
      rw [resolveCodeError_classifier_miss h _ fn hnc hge hc]
      show (NewErrCode internalServerAllocId CCInternalServer 0 0 "ErrInternalServer").GetCode ≠ 0
      decide
    | some c =>
      rw [resolveCodeError_classifier_hit h _ fn c hnc hge hc]
      exact hcl fn _ c hge hc

/-- Witness for C2: the registered `"v1/echo"` handler panics with
`"boom"`; the envelope code is non-zero. -/
theorem panic_contained_witness :
    handleMessageFn serverWithPanicHandler msgEcho =
      (hdrEcho, none, some (.fundamental (goSprintf "panic: %s" [.str "boom"]))) ∧
    (handleMessage serverWithPanicHandler msgEcho).code ≠ 0 :=
  panic_contained serverWithPanicHandler msgEcho hdrEcho hdrEcho
    panicEchoHandler "boom" rfl rfl rfl
    (fun _ _ _ hge => nomatch hge)

/-! ## Claim C3 -/

/-- `fmt.Sprintf("unknown header msg type %s", key)` is the literal prefix
followed by the key. -/
theorem goSprintf_unknown_header (s : String) :
    goSprintf "unknown header msg type %s" [GoVal.str s] =
      "unknown header msg type " ++ s := by
  cases s with
  | mk l =>
    apply congrArg String.mk
    show "unknown header msg type ".toList ++ (l ++ []) =
      "unknown header msg type ".toList ++ l
    simp

/-- C3: a message whose routing key has no registered handler yields the
`ErrParam`-based error wrapped with a message containing the computed key;
the envelope carries `ErrParam`'s code and message, the code is in the
bad-parameter (400) category and is non-zero, and no handler is invoked
(the dispatch outcome is fully determined without consulting any
handler). -/
theorem unknown_route_error (h : defaultHandler) (msg : WireMsg) (hdr : Header)
    (hparse : msg.headerParse = Except.ok hdr)
    (hlook : h.messageHandlers hdr.Key = none) :
    handleMessageFn h msg =
      (hdr, none,
        some (.withMessage (goSprintf "unknown header msg type %s" [.str hdr.Key]) ErrParam)) ∧
    (∃ post : String,
      errString (.withMessage (goSprintf "unknown header msg type %s" [.str hdr.Key]) ErrParam) =
        "unknown header msg type " ++ (hdr.Key ++ post)) ∧
    (handleMessage h msg).code = ErrParamErrCode.GetCode ∧
    (handleMessage h msg).message = ErrParamErrCode.GetMessage ∧
    ErrParamErrCode.GetCategoryCode = CCBadRequest ∧
    ErrParamErrCode.GetCode ≠ 0 := by
  have hfn : handleMessageFn h msg =
      (hdr, none,
        some (.withMessage (goSprintf "unknown header msg type %s" [.str hdr.Key]) ErrParam)) := by
    unfold handleMessageFn
    rw [hparse]
    simp [hlook]
  have hasP : AsCodeError
      (.withMessage (goSprintf "unknown header msg type %s" [.str hdr.Key]) ErrParam) =
      some (ErrParamErrCode, none) := by
    simp [AsCodeError, ErrParam, WithCode, newCodeErrorInternal, hasStack]
  refine ⟨hfn, ⟨": " ++ errString (GoErr.codeErr ErrParamErrCode none), ?_⟩, ?_, ?_, ?_, ?_⟩
  · show goSprintf "unknown header msg type %s" [.str hdr.Key] ++ ": " ++
        errString ErrParam = _
    rw [goSprintf_unknown_header]
    have hep : errString ErrParam = errString (GoErr.codeErr ErrParamErrCode none) := by
      simp [ErrParam, WithCode, newCodeErrorInternal, hasStack, errString]
    rw [hep, String.append_assoc, String.append_assoc]
  · unfold handleMessage
    rw [hfn]
    show (resolveCodeError h _).1.GetCode = _
    unfold resolveCodeError
    rw [hasP]
  · unfold handleMessage
    rw [hfn]
    show (resolveCodeError h _).1.GetMessage = _
    unfold resolveCodeError
    rw [hasP]
  · decide
  · decide

/-- Witness for C3: the spec's own example, `{"header":{"action":"missing"}}`
against an empty registry. -/
theorem unknown_route_error_witness :
    handleMessageFn NewServer msgMissing =
      (hdrMissing, none,
        some (.withMessage (goSprintf "unknown header msg type %s" [.str hdrMissing.Key]) ErrParam)) ∧
    (∃ post : String,
      errString (.withMessage (goSprintf "unknown header msg type %s" [.str hdrMissing.Key]) ErrParam) =
        "unknown header msg type " ++ (hdrMissing.Key ++ post)) ∧
    (handleMessage NewServer msgMissing).code = ErrParamErrCode.GetCode ∧
    (handleMessage NewServer msgMissing).message = ErrParamErrCode.GetMessage ∧
    ErrParamErrCode.GetCategoryCode = CCBadRequest ∧
    ErrParamErrCode.GetCode ≠ 0 :=
  unknown_route_error NewServer msgMissing hdrMissing rfl rfl

/-! ## Claim C4 -/

/-- The envelope code of an error that is not already a `CodeError` is
non-zero whenever the caller-supplied classifier only produces non-zero
codes (the fallback internal-server code is non-zero). -/
theorem getResp_code_ne_zero (h : defaultHandler) (hdr : Header)
    (d : Option GoVal) (e0 : GoErr) (hnc : AsCodeError e0 = none)
    (hcl : ∀ fn c, h.fnGetErrCode = some fn → fn e0 = some c → c.GetCode ≠ 0) :
    (getResp h hdr d (some e0)).code ≠ 0 := by
  show (resolveCodeError h e0).1.GetCode ≠ 0
  cases hge : h.fnGetErrCode with
  | none =>
    rw [resolveCodeError_no_classifier h _ hnc hge]
    show (NewErrCode internalServerAllocId CCInternalServer 0 0 "ErrInternalServer").GetCode ≠ 0
    decide
  | some fn =>
    cases hc : fn e0 with
    | none =>
      rw [resolveCodeError_classifier_miss h _ fn hnc hge hc]
      show (NewErrCode internalServerAllocId CCInternalServer 0 0 "ErrInternalServer").GetCode ≠ 0
      decide
    | some c =>
      rw [resolveCodeError_classifier_hit h _ fn c hnc hge hc]
      exact hcl fn c hge hc

/-- C4 (counterexample to the claim as stated): with the default
configuration, a message for the registered `"v1/echo"` handler whose
`data` field fails to decode produces the internal-server code
`50000000`, whose category is 500 — not the bad-parameter category 400 —
while the handler's `HandleFunc` is never invoked (its `"INVOKED"` probe
payload is absent). -/
theorem data_decode_bad_param_counterexample :
    (handleMessage serverWithBadDataHandler msgEcho).code =
      codeCombiner323.Combine CCInternalServer 0 0 ∧
    (codeCombiner323.Separate (handleMessage serverWithBadDataHandler msgEcho).code).1 ≠
      CCBadRequest ∧
    (handleMessage serverWithBadDataHandler msgEcho).data = none := by
  have hfn : handleMessageFn serverWithBadDataHandler msgEcho =
      (hdrEcho, none,
        some (.plainError "json: cannot unmarshal string into Go struct field .data")) := rfl
  have hnc : AsCodeError
      (GoErr.plainError "json: cannot unmarshal string into Go struct field .data") = none := by
    simp [AsCodeError]
  have hres := resolveCodeError_no_classifier serverWithBadDataHandler _ hnc rfl
  have hcode : (handleMessage serverWithBadDataHandler msgEcho).code =
      codeCombiner323.Combine CCInternalServer 0 0 := by
    unfold handleMessage
    rw [hfn]
    show (resolveCodeError serverWithBadDataHandler _).1.GetCode = _
    rw [hres]
    rfl
  refine ⟨hcode, ?_, ?_⟩
  · rw [hcode]
    decide
  · unfold handleMessage
    rw [hfn]
    rfl

/-- C4 (amended): a message that reaches a registered typed handler but
whose `data` field cannot be decoded yields the raw decode error from
`Handle` — classified through the caller-supplied classifier with the
internal-server fallback (not the bad-parameter code) — so the envelope
code is non-zero (internal-server `50000000` by default), and the
handler's `HandleFunc` is never invoked (the dispatch outcome is fixed by
`dataParse` alone). -/
theorem data_decode_error_skips_handler (h : defaultHandler) (msg : WireMsg)
    (hdr : Header) (Req : Type) (mh : MessageHandler Req) (emsg : String)
    (hparse : msg.headerParse = Except.ok hdr)
    (hlook : h.messageHandlers hdr.Key = some mh.toInterface)
    (hdata : mh.dataParse msg = .error emsg)
    (hcl : ∀ fn e c, h.fnGetErrCode = some fn → fn e = some c → c.GetCode ≠ 0) :
    handleMessageFn h msg = (hdr, none, some (.plainError emsg)) ∧
    (handleMessage h msg).code ≠ 0 ∧
    (h.fnGetErrCode = none →
      (handleMessage h msg).code = codeCombiner323.Combine CCInternalServer 0 0) := by
  have hfn : handleMessageFn h msg = (hdr, none, some (.plainError emsg)) := by
    unfold handleMessageFn
    rw [hparse]
    simp [hlook, MessageHandler.toInterface, MessageHandler.Handle, hdata]
  have hnc : AsCodeError (GoErr.plainError emsg) = none := by simp [AsCodeError]
  refine ⟨hfn, ?_, ?_⟩
  · unfold handleMessage
    rw [hfn]
    exact getResp_code_ne_zero h hdr none (GoErr.plainError emsg) hnc
      (fun fn c hge hc => hcl fn (GoErr.plainError emsg) c hge hc)
  · intro hge
    unfold handleMessage
    rw [hfn]
    show (resolveCodeError h _).1.GetCode = _
    rw [resolveCodeError_no_classifier h _ hnc hge]
    rfl

/-- Witness for the amended C4 at the concrete bad-data fixture. -/
theorem data_decode_error_skips_handler_witness :
    handleMessageFn serverWithBadDataHandler msgEcho =
      (hdrEcho, none,
        some (.plainError "json: cannot unmarshal string into Go struct field .data")) ∧
    (handleMessage serverWithBadDataHandler msgEcho).code ≠ 0 ∧
    (serverWithBadDataHandler.fnGetErrCode = none →
      (handleMessage serverWithBadDataHandler msgEcho).code =
        codeCombiner323.Combine CCInternalServer 0 0) :=
  data_decode_error_skips_handler serverWithBadDataHandler msgEcho hdrEcho Unit
    badDataEchoHandler "json: cannot unmarshal string into Go struct field .data"
    rfl rfl rfl (fun _ _ _ hge => nomatch hge)

/-! ## Claim C6 -/

/-- The `%+v` rendering of any error whose chain carries a captured stack
contains the stack-trace text. -/
theorem formatPlusV_contains_stack :
    ∀ e : GoErr, hasStack (some e) = true →
      ∃ p q : String, formatPlusV e = p ++ (stackTraceText ++ q)
  | .plainError _, h => by simp [hasStack] at h
  | .fundamental msg, _ =>
    ⟨msg, "", by simp [formatPlusV, String.append_empty]⟩
  | .withStack cause, _ =>
    ⟨formatPlusV cause, "", by simp [formatPlusV, String.append_empty]⟩
  | .withMessage m cause, h => by
    obtain ⟨p, q, hpq⟩ := formatPlusV_contains_stack cause (by simpa [hasStack] using h)
    exact ⟨p, q ++ ("\n" ++ m), by simp [formatPlusV, hpq, String.append_assoc]⟩
  | .codeErr _ none, h => by simp [hasStack] at h
  | .codeErr c (some cause), h => by
    obtain ⟨p, q, hpq⟩ := formatPlusV_contains_stack cause (by simpa [hasStack] using h)
    exact ⟨p, q ++ ("\n" ++ errString (GoErr.codeErr c (some cause))),
      by simp [formatPlusV, hpq, String.append_assoc]⟩

/-- A string with the stack-trace text inside is nonempty. -/
theorem append_stackTraceText_ne_empty (a b : String) :
    a ++ (stackTraceText ++ b) ≠ "" := by
  intro hcontra
  have hlen := congrArg String.length hcontra
  rw [String.length_append, String.length_append] at hlen
  have hst : stackTraceText.length = 14 := rfl
  have hemp : String.length "" = 0 := rfl
  rw [hst, hemp] at hlen
  omega

/-- C6: under `HandlerDetailsNone` the envelope never carries a `details`
field, even for errors; under `HandlerDetailsFull`, whenever the resolved
`codeError`'s underlying cause carries a captured stack trace the
`details` field is present and contains the stack-trace text. -/
theorem details_verbosity (h : defaultHandler) (hdr : Header) (d : Option GoVal) :
    (∀ err : Option GoErr, h.detailsType = HandlerDetailsType.HandlerDetailsNone →
      (getResp h hdr d err).details = none) ∧
    (∀ e0 : GoErr, h.detailsType = HandlerDetailsType.HandlerDetailsFull →
      hasStack (resolveCodeError h e0).2 = true →
      ∃ pre post : String,
        (getResp h hdr d (some e0)).details = some (pre ++ (stackTraceText ++ post))) := by
  constructor
  · intro err hnone
    cases err with
    | none => rfl
    | some e0 =>
      have hdet : getDetails h (resolveCodeError h e0).1 (resolveCodeError h e0).2 = "" := by
        unfold getDetails
        rw [hnone]
      show (if getDetails h (resolveCodeError h e0).1 (resolveCodeError h e0).2 = "" then none
          else some (getDetails h (resolveCodeError h e0).1 (resolveCodeError h e0).2)) = none
      rw [hdet]
      simp
  · intro e0 hfull hstk
    rcases hres : resolveCodeError h e0 with ⟨c, cause⟩
    rw [hres] at hstk
    cases cause with
    | none => simp [hasStack] at hstk
    | some cu =>
      obtain ⟨p, q, hpq⟩ := formatPlusV_contains_stack cu (by simpa [hasStack] using hstk)
      refine ⟨p, q ++ ("\n" ++ errString (GoErr.codeErr c (some cu))), ?_⟩
      have hdet : getDetails h (resolveCodeError h e0).1 (resolveCodeError h e0).2 =
          p ++ (stackTraceText ++ (q ++ ("\n" ++ errString (GoErr.codeErr c (some cu))))) := by
        rw [hres]
        unfold getDetails
        rw [hfull]
        show formatPlusV (GoErr.codeErr c (some cu)) = _
        rw [show formatPlusV (GoErr.codeErr c (some cu)) =
            formatPlusV cu ++ "\n" ++ errString (GoErr.codeErr c (some cu)) from by
          simp [formatPlusV]]
        rw [hpq]
        simp [String.append_assoc]
      show (if getDetails h (resolveCodeError h e0).1 (resolveCodeError h e0).2 = "" then none
          else some (getDetails h (resolveCodeError h e0).1 (resolveCodeError h e0).2)) =
        some (p ++ (stackTraceText ++ (q ++ ("\n" ++ errString (GoErr.codeErr c (some cu))))))
      rw [hdet, if_neg (append_stackTraceText_ne_empty _ _)]

/-- Witness for C6: details absent under the default (none) verbosity for
a raw error; details containing the stack-trace text under full verbosity
for a stack-carrying error. -/
theorem details_verbosity_witness :
    (getResp NewServer emptyHeader none (some (GoErr.plainError "x"))).details = none ∧
    (∃ pre post : String,
      (getResp serverFullDetails emptyHeader none (some (GoErr.fundamental "boom"))).details =
        some (pre ++ (stackTraceText ++ post))) := by
  constructor
  · exact (details_verbosity NewServer emptyHeader none).1 (some (.plainError "x")) rfl
  · refine (details_verbosity serverFullDetails emptyHeader none).2 (.fundamental "boom") rfl ?_
    rw [resolveCodeError_no_classifier serverFullDetails _ (by simp [AsCodeError]) rfl]
    simp [hasStack]

/-! ## Claim C7 -/

/-- C7: registering two handlers whose declared headers compute the same
routing key leaves only the second reachable: the lookup at that key
returns the second handler, and the whole registry is the old registry
overwritten at exactly that one key. -/
theorem register_same_key_replaces (h : defaultHandler)
    (mh1 mh2 : MessageHandlerInterface)
    (hkey : mh1.GetHeader.Key = mh2.GetHeader.Key) :
    (RegisterMessageHandler (RegisterMessageHandler h mh1) mh2).messageHandlers
        mh1.GetHeader.Key = some mh2 ∧
    ∀ k, (RegisterMessageHandler (RegisterMessageHandler h mh1) mh2).messageHandlers k =
      if k = mh2.GetHeader.Key then some mh2 else h.messageHandlers k := by
  constructor
  · simp [RegisterMessageHandler, hkey]
  · intro k
    by_cases hk : k = mh2.GetHeader.Key
    · simp [RegisterMessageHandler, hk]
    · simp [RegisterMessageHandler, hk, hkey ▸ hk]

/-- Witness for C7: two probe handlers registered under `"v1/echo"`; the
lookup returns the second. -/
theorem register_same_key_replaces_witness :
    (RegisterMessageHandler (RegisterMessageHandler NewServer probeHandlerA)
        probeHandlerB).messageHandlers probeHandlerA.GetHeader.Key = some probeHandlerB :=
  (register_same_key_replaces NewServer probeHandlerA probeHandlerB rfl).1

/-! ## Claim C8 -/

/-- C8: `newCodeErrorInternal` (the core of `WithCode`) captures a stack
trace only when the cause's chain does not already expose one: with a
stack-tracing cause the trace count is unchanged, and otherwise (including
a `nil` cause) the result holds exactly one captured trace. -/
theorem withCode_single_stack_capture (c : ErrCode) (cause : Option GoErr) :
    stackCount (newCodeErrorInternal c cause) =
      if hasStack cause then stackCountOpt cause else 1 := by
  unfold newCodeErrorInternal
  by_cases h : hasStack cause
  · simp [h, stackCount_codeErr]
  · simp only [h, Bool.false_eq_true, if_false, stackCount]
    rw [stackCount_codeErr,
      stackCountOpt_eq_zero_of_not_hasStack cause (by simpa using h)]

/-! ## Claim C9 -/

/-- C9: `IsCodeError` with a target code compares handle identity, not
numeric value: an error built over handle `c1` is not recognized as a
distinct handle `c2` even when both pack to the same integer, while it is
recognized as `c1` itself. -/
theorem isCodeError_handle_identity (c1 c2 : ErrCode) (err : Option GoErr)
    (hstk : hasStack err = false)
    (_hcode : c1.GetCode = c2.GetCode) (hid : c1.allocId ≠ c2.allocId) :
    IsCodeError (WithCode c1 err []) [c2] = false ∧
    IsCodeError (WithCode c1 err []) [c1] = true := by
  constructor <;>
    simp [WithCode, newCodeErrorInternal, hstk, IsCodeError, AsCodeError,
      ErrCode.IsErrCode, hid]

/-- Witness for C9: two independently allocated handles packing to the
same integer `40000001`. -/
theorem isCodeError_handle_identity_witness :
    IsCodeError (WithCode (NewErrCode 1 400 0 1 "EA") none []) [NewErrCode 2 400 0 1 "EB"] = false ∧
    IsCodeError (WithCode (NewErrCode 1 400 0 1 "EA") none []) [NewErrCode 1 400 0 1 "EA"] = true :=
  isCodeError_handle_identity (NewErrCode 1 400 0 1 "EA") (NewErrCode 2 400 0 1 "EB")
    none (by simp [hasStack]) rfl (by decide)

/-! ## Claim C10 -/

/-- C10: when the first variadic argument of `WithCode` is not a string,
all the extra arguments are ignored and the result is exactly
`WithCode c err` with no additional message layer. -/
theorem withCode_ignores_nonstring_args (c : ErrCode) (err : Option GoErr)
    (a : GoVal) (rest : List GoVal) (h : ∀ s, a ≠ GoVal.str s) :
    WithCode c err (a :: rest) = WithCode c err [] := by
  cases a with
  | str s => exact absurd rfl (h s)
  | nonStr => rfl

/-- Witness for C10: a non-string first argument followed by a string is
ignored entirely. -/
theorem withCode_ignores_nonstring_args_witness :
    WithCode (NewErrCode 3 500 0 2 "EC") none [GoVal.nonStr, GoVal.str "x"] =
      WithCode (NewErrCode 3 500 0 2 "EC") none [] :=
  withCode_ignores_nonstring_args (NewErrCode 3 500 0 2 "EC") none
    GoVal.nonStr [GoVal.str "x"] (fun _ h => nomatch h)

end GoPkg
